import Mathlib

/-!
Verification of the docker command family of `click_project/docker.py`.

The service-name discovery pipeline, the TTL cache, the completion filter,
the argument vectors forwarded to the orchestrator and the docker-group
check are embedded shallowly below.  Functions whose bodies live in this
repository but outside `src/click_project/docker.py` (the `cache_disk`
decorator, `check_output`, the completion helper `startswith` and the
completion machinery) are modelled from the specification and marked as
such in their doc comments.
-/

namespace ClickProject

/-- Model of Python `str.splitlines` restricted to the LF line terminator,
the only terminator occurring in the orchestrator outputs considered here:
every LF ends a line, and a final segment with no terminator is kept while
a trailing empty segment after the last LF is not. -/
def pySplitlines : List Char → List (List Char)
  | [] => []
  | c :: cs =>
    if c = '\n' then
      [] :: pySplitlines cs
    else
      match pySplitlines cs with
      | [] => [[c]]
      | l :: ls => (c :: l) :: ls

/-- Model of Python `str.strip()` with no argument: remove leading and
trailing whitespace characters. -/
def pyStrip (s : List Char) : List Char :=
  ((s.dropWhile Char.isWhitespace).reverse.dropWhile Char.isWhitespace).reverse

/-- The body of `compute` in `DockerServices.choices` (docker.py lines 42-48):
split the captured standard output of the orchestrator into lines and strip
each line.  The list comprehension has no filtering clause, so lines that
strip to the empty string are kept. -/
def parseServices (output : String) : List String :=
  ((pySplitlines output.data).map pyStrip).map (fun cs => String.mk cs)

/-- Discovery errors: `check_output` signalling a failed orchestrator
invocation (non-zero exit or spawn failure). -/
abbrev DiscoveryError := Unit

/-- The orchestrator as seen by discovery: for a working directory and a
list of extra flags it either produces captured standard output or fails. -/
structure World where
  orch : String → List String → Except DiscoveryError String

/-- A cache key of the `cache_disk`-backed discovery: the absolute project
directory together with the ordered extra flags, matching the arguments
`(directory, args)` of `compute` in docker.py lines 41-48. -/
abbrev CacheKey := String × List String

/-- One cache entry: the discovered services and the creation time
(in seconds). -/
structure CacheEntry where
  services : List String
  createdAt : Nat
deriving DecidableEq, Repr

/-- The cache state: an association list from keys to entries. -/
abbrev Cache := List (CacheKey × CacheEntry)

/-- Look up the entry stored for a key, if any. -/
def lookupCache (c : Cache) (k : CacheKey) : Option CacheEntry :=
  (c.find? (fun p => decide (p.1 = k))).map Prod.snd

/-- Store an entry for a key, replacing any prior entry for that key. -/
def storeCache (c : Cache) (k : CacheKey) (e : CacheEntry) : Cache :=
  (k, e) :: c.filter (fun p => decide (p.1 ≠ k))

/-- The cache expiry in seconds, from `@cache_disk(expire=60)`
(docker.py line 41). -/
def expire : Nat := 60

/-- A completed `listServices` call: the services returned, the cache state
after the call, and how many external orchestrator invocations the call
issued. -/
structure ListResult where
  services : List String
  cache : Cache
  invocations : Nat
deriving Repr

/-- The uncached discovery body of `DockerServices.choices` (docker.py
lines 42-48): invoke the orchestrator with `flags + [config, --services]`
in the given directory, parse its output, and store the result with
`createdAt = now`.  A failed invocation propagates and stores nothing. -/
def discover (w : World) (now : Nat) (dir : String) (flags : List String)
    (c : Cache) : Except DiscoveryError ListResult :=
  match w.orch dir flags with
  | .error e => .error e
  | .ok out =>
      .ok ⟨parseServices out,
           storeCache c (dir, flags) ⟨parseServices out, now⟩, 1⟩

/-- Modelled from the spec: the `cache_disk(expire=60)` decorator of
`click_project.core` (a module of this repository not under src/) wrapped
around the discovery body of `DockerServices.choices` (docker.py lines
40-49).  A cache entry younger than 60 seconds is returned verbatim with no
invocation; otherwise discovery runs and its entry replaces any prior entry
for the key. -/
def listServices (w : World) (now : Nat) (dir : String) (flags : List String)
    (c : Cache) : Except DiscoveryError ListResult :=
  match lookupCache c (dir, flags) with
  | some e =>
      if now - e.createdAt < expire then
        .ok ⟨e.services, c, 0⟩
      else
        discover w now dir flags c
  | none => discover w now dir flags c

/-- Modelled from the spec: `click_project.completion.startswith` (a module
of this repository not under src/), a case-sensitive prefix match of the
candidate against the partial word. -/
def startswith (choice incomplete : String) : Bool :=
  go incomplete.data choice.data
where
  go : List Char → List Char → Bool
    | [], _ => true
    | _ :: _, [] => false
    | a :: as, b :: bs => a == b && go as bs

/-- `DockerServices.complete` (docker.py lines 51-56) — keep the choices the
partial word is a prefix of — composed with the completion machinery
modelled from the spec: a discovery error is swallowed and yields an empty
candidate list with the cache unchanged. -/
def completeServices (w : World) (now : Nat) (dir : String)
    (flags : List String) (c : Cache) (incomplete : String) :
    List String × Cache :=
  match listServices w now dir flags c with
  | .error _ => ([], c)
  | .ok r => (r.services.filter (fun choice => startswith choice incomplete),
              r.cache)

/-- One external process invocation: the full argument vector and the
working directory. -/
structure Invocation where
  argv : List String
  cwd : String
deriving DecidableEq, Repr

/-- The `docker_compose` helper (docker.py lines 31-34): run
`[docker-compose] + extra_options + args` in the absolute project
directory. -/
def docker_compose (extra : List String) (dir : String)
    (args : List String) : Invocation :=
  ⟨"docker-compose" :: (extra ++ args), dir⟩

/-- The argument vector built by the `up` subcommand body (docker.py lines
62-73): `[up, -d, --build]`, then `[--scale, s]` for each requested scale in
order, then `[--force-recreate]` when requested, then the service names in
input order. -/
def upArgs (service : List String) (force_recreate : Bool)
    (scales : List String) : List String :=
  let up_args := scales.foldl (fun acc scale => acc ++ ["--scale", scale]) []
  ["up", "-d", "--build"] ++ up_args ++
    (if force_recreate then ["--force-recreate"] else []) ++ service

/-- The default of the `--remove-orphans` flag of `down` (docker.py line
76): enabled. -/
def remove_orphans_default : Bool := true

/-- The argument vector built by the `down` subcommand body (docker.py
lines 78-83). -/
def downArgs (remove_orphans : Bool) : List String :=
  ["down"] ++ (if remove_orphans then ["--remove-orphans"] else [])

/-- The argument vector built by the `ps` subcommand body (docker.py lines
104-109). -/
def psArgs (service : List String) : List String :=
  ["ps"] ++ service

/-- The argument vector built by the `status` subcommand body (docker.py
lines 111-116). -/
def statusArgs (service : List String) : List String :=
  ["ps"] ++ service

/-- The orchestrator invocation issued by `ps`. -/
def psInvocation (extra : List String) (dir : String)
    (service : List String) : Invocation :=
  docker_compose extra dir (psArgs service)

/-- The orchestrator invocation issued by `status`. -/
def statusInvocation (extra : List String) (dir : String)
    (service : List String) : Invocation :=
  docker_compose extra dir (statusArgs service)

/-- A system group, with its name and member list, as exposed by the group
database (the fields mirror `gr_name` and `gr_mem` of the `grp` module). -/
structure Group where
  gr_name : String
  gr_mem : List String
deriving DecidableEq, Repr

/-- The host environment seen by `user_in_docker_group`: the current user
name and the outcome of `import grp` followed by `grp.getgrall()` —
`none` when the module is unavailable (ImportError), `some (.error m)` when
group enumeration itself raises a runtime error with message `m`, and
`some (.ok gs)` when it returns the group list `gs`. -/
structure GroupEnv where
  user : String
  importGrp : Option (Except String (List Group))

/-- The Python exceptions user_in_docker_group can see: ImportError from
`import grp`, click.ClickException raised by the check itself, and runtime
errors (such as PermissionError) from group enumeration. -/
inductive PyError where
  | importError
  | clickException (msg : String)
  | osError (msg : String)
deriving DecidableEq, Repr

/-- The remediation message of the ClickException raised by
`user_in_docker_group` (docker.py lines 171-172), quotes elided. -/
def dockerGroupMsg : String :=
  "The current user is not in the docker group." ++
    " Please add it to /etc/group or use fix-up"

/-- The group-name list built inside `user_in_docker_group` (docker.py line
168): the names of the groups whose member list holds the current user. -/
def membershipNames (user : String) (gs : List Group) : List String :=
  (gs.filter (fun g => decide (user ∈ g.gr_mem))).map Group.gr_name

/-- The body of the `try` block of `user_in_docker_group` (docker.py lines
167-172): import grp, enumerate the groups holding the current user, and
raise a ClickException when docker is not among them.  Each failure mode
surfaces as the corresponding exception. -/
def groupCheckBody (env : GroupEnv) : Except PyError Unit :=
  match env.importGrp with
  | none => .error .importError
  | some (.error m) => .error (.osError m)
  | some (.ok gs) =>
      if "docker" ∈ membershipNames env.user gs then .ok ()
      else .error (.clickException dockerGroupMsg)

/-- `user_in_docker_group` (docker.py lines 166-174): the try block guarded
by `except ImportError: pass`, so exactly the ImportError outcome is
swallowed and every other exception propagates. -/
def user_in_docker_group (env : GroupEnv) : Except PyError Unit :=
  match groupCheckBody env with
  | .error .importError => .ok ()
  | r => r

/-- The `up` subcommand body (docker.py lines 62-73): run the docker-group
check first; on failure the command aborts with that error and issues no
orchestrator invocation, otherwise it issues exactly the one `up`
invocation.  The result pairs the invocations issued with the error that
aborted the command, if any. -/
def upCommand (env : GroupEnv) (extra : List String) (dir : String)
    (service : List String) (force_recreate : Bool) (scales : List String) :
    List Invocation × Option PyError :=
  match user_in_docker_group env with
  | .error e => ([], some e)
  | .ok _ =>
      ([docker_compose extra dir (upArgs service force_recreate scales)],
       none)

/-- The keys currently present in a cache state. -/
def cacheKeys (c : Cache) : List CacheKey :=
  c.map Prod.fst

/-- A cache state is well-formed when it holds at most one entry per key. -/
def keysNodup (c : Cache) : Prop :=
  (cacheKeys c).Nodup

/-- A world in which every orchestrator invocation fails. -/
def failWorld : World := ⟨fun _ _ => .error ()⟩

/-- A world in which the orchestrator always prints three services. -/
def threeServicesWorld : World := ⟨fun _ _ => .ok "web\nworker\nwebhook\n"⟩

/-- A host whose group database lacks the current user in docker. -/
def envNotMember : GroupEnv :=
  ⟨"alice", some (.ok [⟨"docker", ["bob"]⟩, ⟨"wheel", ["alice"]⟩])⟩

/-- A host on which the grp module is unavailable. -/
def envNoGrp : GroupEnv := ⟨"alice", none⟩

/-- A host on which group enumeration raises a runtime error. -/
def envDenied : GroupEnv := ⟨"alice", some (.error "permission denied")⟩

theorem find?_filter_of_imp {α : Type} (p q : α → Bool) (l : List α)
    (h : ∀ x, p x = true → q x = true) :
    (l.filter q).find? p = l.find? p := by
  induction l with
  | nil => rfl
  | cons a t ih =>
      cases hq : q a with
      | true =>
          rw [List.filter_cons_of_pos hq]
          cases hp : p a with
          | true => simp [List.find?, hp]
          | false => simp [List.find?, hp, ih]
      | false =>
          have hp : p a = false := by
            cases hpa : p a
            · rfl
            · exact absurd (h a hpa) (by simp [hq])
          rw [List.filter_cons_of_neg (by simp [hq])]
          simp [List.find?, hp, ih]

theorem lookupCache_storeCache_self (c : Cache) (k : CacheKey) (e : CacheEntry) :
    lookupCache (storeCache c k e) k = some e := by
  simp [lookupCache, storeCache, List.find?]

theorem lookupCache_storeCache_ne (c : Cache) (k kB : CacheKey) (e : CacheEntry)
    (h : kB ≠ k) :
    lookupCache (storeCache c k e) kB = lookupCache c kB := by
  unfold lookupCache storeCache
  rw [List.find?]
  have : decide ((k, e).1 = kB) = false := by simp [Ne.symm h]
  rw [this]
  rw [find?_filter_of_imp _ _ _ ?_]
  intro x hx
  simp at hx ⊢
  exact fun hk => h (hk ▸ hx).symm

theorem keysNodup_storeCache (c : Cache) (k : CacheKey) (e : CacheEntry)
    (h : keysNodup c) : keysNodup (storeCache c k e) := by
  unfold keysNodup cacheKeys storeCache
  simp only [List.map_cons, List.nodup_cons]
  refine ⟨?_, ((List.filter_sublist c).map Prod.fst).nodup h⟩
  intro hmem
  simp only [List.mem_map, List.mem_filter] at hmem
  obtain ⟨p, ⟨hp, hne⟩, hfst⟩ := hmem
  simp at hne
  exact hne (hfst ▸ rfl)

theorem discover_ok (w : World) (now : Nat) (dir : String) (flags : List String)
    (c : Cache) (r : ListResult) (h : discover w now dir flags c = .ok r) :
    ∃ out, w.orch dir flags = .ok out ∧
      r = ⟨parseServices out, storeCache c (dir, flags) ⟨parseServices out, now⟩, 1⟩ := by
  unfold discover at h
  cases horch : w.orch dir flags with
  | error e => rw [horch] at h; exact absurd h (by simp)
  | ok out =>
      rw [horch] at h
      injection h with h
      exact ⟨out, rfl, h.symm⟩

theorem startswith_empty_word (s : String) : startswith s "" = true := rfl

/-- C1 (counterexample): the claimed parse of `"web\nworker\n\n  db  \n"` to
`[web, worker, db]` is false on the code: the list comprehension in
`DockerServices.choices` has no filtering clause, so the blank line is kept
(as the empty string) rather than discarded. -/
theorem discovery_blank_lines_cex :
    ¬ parseServices "web\nworker\n\n  db  \n" = ["web", "worker", "db"] := by
  decide

/-- C1 (amended): discovery splits the captured standard output into lines
and trims surrounding whitespace from each line, but keeps empty lines as
empty strings: the orchestrator output `"web\nworker\n\n  db  \n"` parses to
`[web, worker, "", db]`. -/
theorem discovery_blank_lines_kept :
    parseServices "web\nworker\n\n  db  \n" = ["web", "worker", "", "db"] := by
  decide

/-- C2: when no unexpired cache entry exists for the key and the external
discovery invocation fails, `listServices` surfaces the discovery error
while `completeServices` returns an empty candidate sequence without
raising, and the failure leaves the cache unchanged (not cached). -/
theorem discovery_failure_modes (w : World) (now : Nat) (dir : String)
    (flags : List String) (c : Cache) (incomplete : String)
    (hfresh : ∀ e, lookupCache c (dir, flags) = some e →
      ¬ now - e.createdAt < expire)
    (horch : w.orch dir flags = .error ()) :
    listServices w now dir flags c = .error ()
    ∧ completeServices w now dir flags c incomplete = ([], c) := by
  have hlist : listServices w now dir flags c = .error () := by
    unfold listServices
    cases hl : lookupCache c (dir, flags) with
    | none => simp [discover, horch]
    | some e => simp [hfresh e hl, discover, horch]
  exact ⟨hlist, by simp [completeServices, hlist]⟩

theorem discovery_failure_modes_witness :
    listServices failWorld 0 "/proj" ["-p", "x"] [] = .error ()
    ∧ completeServices failWorld 0 "/proj" ["-p", "x"] [] "w" = ([], []) :=
  discovery_failure_modes failWorld 0 "/proj" ["-p", "x"] [] "w"
    (fun e he => by simp [lookupCache] at he) rfl

/-- C3: for a key with no prior entry, a first `listServices` call that
discovers successfully at time `t1` issues exactly one invocation; a second
call strictly less than 60 seconds later returns the cached sequence
verbatim with no invocation and no cache change; and a call at a time at
least 60 seconds after `t1` issues a fresh invocation and replaces the
entry wholesale with one created at that time. -/
theorem cache_ttl_window (w : World) (dir : String) (flags : List String)
    (c : Cache) (t1 t2 t3 : Nat) (out : String)
    (hc : lookupCache c (dir, flags) = none)
    (ho : w.orch dir flags = .ok out)
    (hlt : t2 - t1 < 60) (hexp : 60 ≤ t3 - t1) :
    ∃ r1 : ListResult,
      listServices w t1 dir flags c = .ok r1
      ∧ r1.invocations = 1
      ∧ r1.services = parseServices out
      ∧ listServices w t2 dir flags r1.cache = .ok ⟨r1.services, r1.cache, 0⟩
      ∧ ∃ r3 : ListResult,
          listServices w t3 dir flags r1.cache = .ok r3
          ∧ r3.invocations = 1
          ∧ lookupCache r3.cache (dir, flags)
              = some ⟨parseServices out, t3⟩ := by
  refine ⟨⟨parseServices out,
           storeCache c (dir, flags) ⟨parseServices out, t1⟩, 1⟩,
          ?_, rfl, rfl, ?_, ?_⟩
  · simp [listServices, hc, discover, ho]
  · simp [listServices, lookupCache_storeCache_self, expire, hlt]
  · refine ⟨⟨parseServices out,
             storeCache (storeCache c (dir, flags) ⟨parseServices out, t1⟩)
               (dir, flags) ⟨parseServices out, t3⟩, 1⟩, ?_, rfl, ?_⟩
    · simp [listServices, lookupCache_storeCache_self, expire,
            Nat.not_lt.mpr hexp, discover, ho]
    · exact lookupCache_storeCache_self _ _ _

theorem cache_ttl_window_witness :
    ∃ r1 : ListResult,
      listServices threeServicesWorld 10 "/proj" ["-p", "x"] [] = .ok r1
      ∧ r1.invocations = 1
      ∧ r1.services = parseServices "web\nworker\nwebhook\n"
      ∧ listServices threeServicesWorld 69 "/proj" ["-p", "x"] r1.cache
          = .ok ⟨r1.services, r1.cache, 0⟩
      ∧ ∃ r3 : ListResult,
          listServices threeServicesWorld 70 "/proj" ["-p", "x"] r1.cache
            = .ok r3
          ∧ r3.invocations = 1
          ∧ lookupCache r3.cache ("/proj", ["-p", "x"])
              = some ⟨parseServices "web\nworker\nwebhook\n", 70⟩ :=
  cache_ttl_window threeServicesWorld "/proj" ["-p", "x"] [] 10 69 70
    "web\nworker\nwebhook\n" rfl rfl (by decide) (by decide)

/-- C4: `up` with `force_recreate = true` and `scales = [web=2]` forwards
exactly `[up, -d, --build, --scale, web=2, --force-recreate]` followed by
the requested service names in input order. -/
theorem up_forwarded_args (service : List String) :
    upArgs service true ["web=2"]
      = ["up", "-d", "--build", "--scale", "web=2", "--force-recreate"]
          ++ service := rfl

/-- C5: `completeServices` returns exactly the filter of the discovered
services by the case-sensitive prefix match, hence a subsequence of
`listServices` in discovery order; the empty partial word returns all
services, and the partial word `web` on services `[web, worker, webhook]`
returns `[web, webhook]`. -/
theorem completion_filters_choices (w : World) (now : Nat) (dir : String)
    (flags : List String) (c : Cache) (incomplete : String) (r : ListResult)
    (h : listServices w now dir flags c = .ok r) :
    completeServices w now dir flags c incomplete
      = (r.services.filter (fun s => startswith s incomplete), r.cache)
    ∧ (completeServices w now dir flags c incomplete).1.Sublist r.services
    ∧ completeServices w now dir flags c "" = (r.services, r.cache)
    ∧ (r.services = ["web", "worker", "webhook"] →
        (completeServices w now dir flags c "web").1 = ["web", "webhook"]) := by
  refine ⟨by simp [completeServices, h], ?_, ?_, ?_⟩
  · simp only [completeServices, h]
    exact List.filter_sublist r.services
  · simp only [completeServices, h]
    rw [List.filter_eq_self.mpr (fun a _ => startswith_empty_word a)]
  · intro hs
    simp only [completeServices, h, hs]
    decide

theorem completion_filters_choices_witness :
    completeServices threeServicesWorld 0 "/proj" ["-p", "x"] [] "web"
      = ((parseServices "web\nworker\nwebhook\n").filter
           (fun s => startswith s "web"),
         storeCache [] ("/proj", ["-p", "x"])
           ⟨parseServices "web\nworker\nwebhook\n", 0⟩)
    ∧ (completeServices threeServicesWorld 0 "/proj" ["-p", "x"] [] "web").1.Sublist
        (parseServices "web\nworker\nwebhook\n")
    ∧ completeServices threeServicesWorld 0 "/proj" ["-p", "x"] [] ""
      = (parseServices "web\nworker\nwebhook\n",
         storeCache [] ("/proj", ["-p", "x"])
           ⟨parseServices "web\nworker\nwebhook\n", 0⟩)
    ∧ (parseServices "web\nworker\nwebhook\n" = ["web", "worker", "webhook"] →
        (completeServices threeServicesWorld 0 "/proj" ["-p", "x"] [] "web").1
          = ["web", "webhook"]) :=
  completion_filters_choices threeServicesWorld 0 "/proj" ["-p", "x"] [] "web"
    ⟨parseServices "web\nworker\nwebhook\n",
     storeCache [] ("/proj", ["-p", "x"])
       ⟨parseServices "web\nworker\nwebhook\n", 0⟩, 1⟩ rfl

/-- C6: `down` forwards `[down, --remove-orphans]` under the default flag
value and exactly `[down]` when `--remove-orphans` is disabled. -/
theorem down_forwarded_args :
    downArgs remove_orphans_default = ["down", "--remove-orphans"]
    ∧ downArgs false = ["down"] := ⟨rfl, rfl⟩

/-- C7: `up` runs the docker-group check before any orchestrator
invocation: when group enumeration succeeds and docker is not among the
groups holding the current user, the command aborts with the descriptive
ClickException and issues no invocation; when group enumeration is
unavailable on the host, the check is skipped silently and `up` issues its
single orchestrator invocation. -/
theorem up_group_check_gate (env : GroupEnv) (extra : List String)
    (dir : String) (service : List String) (fr : Bool)
    (scales : List String) :
    (∀ gs, env.importGrp = some (.ok gs) →
        "docker" ∉ membershipNames env.user gs →
        upCommand env extra dir service fr scales
          = ([], some (.clickException dockerGroupMsg)))
    ∧ (env.importGrp = none →
        upCommand env extra dir service fr scales
          = ([docker_compose extra dir (upArgs service fr scales)], none)) := by
  constructor
  · intro gs hgs hnot
    simp [upCommand, user_in_docker_group, groupCheckBody, hgs, hnot]
  · intro hnone
    simp [upCommand, user_in_docker_group, groupCheckBody, hnone]

theorem up_group_check_gate_witness :
    upCommand envNotMember ["-p", "x"] "/proj" ["web"] false []
      = ([], some (.clickException dockerGroupMsg))
    ∧ upCommand envNoGrp ["-p", "x"] "/proj" ["web"] false []
      = ([docker_compose ["-p", "x"] "/proj" (upArgs ["web"] false [])],
         none) :=
  ⟨(up_group_check_gate envNotMember ["-p", "x"] "/proj" ["web"] false []).1
      _ rfl (by decide),
   (up_group_check_gate envNoGrp ["-p", "x"] "/proj" ["web"] false []).2 rfl⟩

/-- C8: a `listServices` call preserves the at-most-one-entry-per-key cache
invariant; the services it returns come either from the entry stored for
its own key or from a fresh orchestrator invocation for its own directory
and flags; and it leaves the entry of every other directory untouched, so
two distinct directories never share a cache entry. -/
theorem cache_key_isolation (w : World) (now : Nat) (dir dirB : String)
    (flags : List String) (c : Cache) (r : ListResult)
    (hnd : keysNodup c)
    (h : listServices w now dir flags c = .ok r) :
    keysNodup r.cache
    ∧ ((∃ e, lookupCache c (dir, flags) = some e ∧ r.services = e.services)
        ∨ (∃ out, w.orch dir flags = .ok out
            ∧ r.services = parseServices out))
    ∧ (dirB ≠ dir →
        lookupCache r.cache (dirB, flags) = lookupCache c (dirB, flags)) := by
  unfold listServices at h
  cases hl : lookupCache c (dir, flags) with
  | none =>
      rw [hl] at h
      obtain ⟨out, horch, hr⟩ := discover_ok w now dir flags c r h
      subst hr
      refine ⟨keysNodup_storeCache _ _ _ hnd,
              Or.inr ⟨out, horch, rfl⟩, fun hne => ?_⟩
      exact lookupCache_storeCache_ne _ _ _ _
        (fun hh => hne (congrArg Prod.fst hh))
  | some e =>
      rw [hl] at h
      have h : (if now - e.createdAt < expire then
            Except.ok ⟨e.services, c, 0⟩
          else discover w now dir flags c) = Except.ok r := h
      by_cases ht : now - e.createdAt < expire
      · rw [if_pos ht] at h
        injection h with h
        subst h
        exact ⟨hnd, Or.inl ⟨e, rfl, rfl⟩, fun _ => rfl⟩
      · rw [if_neg ht] at h
        obtain ⟨out, horch, hr⟩ := discover_ok w now dir flags c r h
        subst hr
        refine ⟨keysNodup_storeCache _ _ _ hnd,
                Or.inr ⟨out, horch, rfl⟩, fun hne => ?_⟩
        exact lookupCache_storeCache_ne _ _ _ _
          (fun hh => hne (congrArg Prod.fst hh))

theorem cache_key_isolation_witness :
    keysNodup (storeCache [] ("/proj", ["-p", "x"])
        ⟨parseServices "web\nworker\nwebhook\n", 0⟩)
    ∧ ((∃ e, lookupCache [] ("/proj", ["-p", "x"]) = some e
          ∧ parseServices "web\nworker\nwebhook\n" = e.services)
        ∨ (∃ out, threeServicesWorld.orch "/proj" ["-p", "x"] = .ok out
            ∧ parseServices "web\nworker\nwebhook\n" = parseServices out))
    ∧ ("/other" ≠ "/proj" →
        lookupCache (storeCache [] ("/proj", ["-p", "x"])
            ⟨parseServices "web\nworker\nwebhook\n", 0⟩)
          ("/other", ["-p", "x"])
          = lookupCache [] ("/other", ["-p", "x"])) :=
  cache_key_isolation threeServicesWorld 0 "/proj" "/other" ["-p", "x"] []
    ⟨parseServices "web\nworker\nwebhook\n",
     storeCache [] ("/proj", ["-p", "x"])
       ⟨parseServices "web\nworker\nwebhook\n", 0⟩, 1⟩
    (by simp [keysNodup, cacheKeys]) rfl

/-- C9: `ps` and `status` are behaviourally identical: for every service
list both forward `[ps]` followed by the requested service names, and both
issue the same orchestrator invocation with the same working directory. -/
theorem ps_status_identical (extra : List String) (dir : String)
    (service : List String) :
    psInvocation extra dir service = statusInvocation extra dir service
    ∧ psArgs service = "ps" :: service
    ∧ statusArgs service = "ps" :: service := ⟨rfl, rfl, rfl⟩

/-- C10: the `except ImportError: pass` around the docker-group check
swallows exactly the unavailable-module outcome: with the grp module
unavailable the check returns silently, while a runtime error from group
enumeration and the not-in-group ClickException both propagate, and no
error the check ever surfaces is an ImportError. -/
theorem group_check_swallows_only_import (env : GroupEnv) :
    (env.importGrp = none → user_in_docker_group env = .ok ())
    ∧ (∀ m, env.importGrp = some (.error m) →
        user_in_docker_group env = .error (.osError m))
    ∧ (∀ gs, env.importGrp = some (.ok gs) →
        "docker" ∉ membershipNames env.user gs →
        user_in_docker_group env = .error (.clickException dockerGroupMsg))
    ∧ (∀ e, user_in_docker_group env = .error e → e ≠ .importError) := by
  refine ⟨?_, ?_, ?_, ?_⟩
  · intro hnone
    simp [user_in_docker_group, groupCheckBody, hnone]
  · intro m hm
    simp [user_in_docker_group, groupCheckBody, hm]
  · intro gs hgs hnot
    simp [user_in_docker_group, groupCheckBody, hgs, hnot]
  · intro e he
    unfold user_in_docker_group at he
    cases hb : groupCheckBody env with
    | ok u => rw [hb] at he; exact absurd he (by simp)
    | error pe =>
        rw [hb] at he
        cases pe with
        | importError => exact absurd he (by simp)
        | clickException m =>
            injection he with he
            subst he
            simp
        | osError m =>
            injection he with he
            subst he
            simp

theorem group_check_swallows_only_import_witness :
    user_in_docker_group envNoGrp = .ok ()
    ∧ user_in_docker_group envDenied = .error (.osError "permission denied")
    ∧ user_in_docker_group envNotMember
      = .error (.clickException dockerGroupMsg) :=
  ⟨(group_check_swallows_only_import envNoGrp).1 rfl,
   (group_check_swallows_only_import envDenied).2.1 "permission denied" rfl,
   (group_check_swallows_only_import envNotMember).2.2.1 _ rfl (by decide)⟩

end ClickProject
